import Mathlib

/-
Verification of the liveness-resolution subsystem of the DVR status
dashboard (check_online.py and server.py), as a shallow embedding.

Transport interactions (`UDP(...).request(...)` / `.read(return_error=True)`)
are modelled as explicit inputs of type `Except Unit Response`: an `.error`
value stands for a transport-level exception, an `.ok` value for a decoded
`{code, data}` reply.  JSON-like payloads are modelled by the inductive
type `Val`; Python truthiness of such values by `Val.truthy`.  Python
dictionaries are modelled as association lists with unique keys.
-/

namespace DVR

/-- Characters Python's `str.strip()` removes (ASCII whitespace). -/
def isPySpace (c : Char) : Bool :=
  c = ' ' || c = '\t' || c = '\n' || c = '\r' || c = '\x0b' || c = '\x0c'

/-- Python `s.strip()` on its list of characters. -/
def stripChars (cs : List Char) : List Char :=
  ((cs.dropWhile isPySpace).reverse.dropWhile isPySpace).reverse

/-- Python `s.strip()`. -/
def pyStrip (s : String) : String :=
  String.mk (stripChars s.toList)

/-- ASCII lower-casing of one character, as Python `str.lower()` does. -/
def lowerChar (c : Char) : Char :=
  if 'A' ≤ c && c ≤ 'Z' then Char.ofNat (c.toNat + 32) else c

/-- Python `s.lower()`. -/
def pyLower (s : String) : String :=
  String.mk (s.toList.map lowerChar)

/-- Python `s.endswith(".0")`. -/
def endsWithDot0 (s : String) : Bool :=
  match s.toList.reverse with
  | '0' :: '.' :: _ => true
  | _ => false

/-- Python `s[:-2]`. -/
def dropLast2 (s : String) : String :=
  String.mk (s.toList.reverse.drop 2).reverse

/-- A JSON-like decoded payload value. -/
inductive Val where
  | vNull
  | vBool (b : Bool)
  | vInt (n : Int)
  | vStr (s : String)
  | vList (xs : List Val)
  | vDict (fields : List (String × Val))

/-- Python truthiness of a payload value. -/
def Val.truthy : Val → Bool
  | .vNull => false
  | .vBool b => b
  | .vInt n => n != 0
  | .vStr s => s != ""
  | .vList xs => !xs.isEmpty
  | .vDict fs => !fs.isEmpty

/-- A decoded transport reply `{code, data}` (`data` may be absent). -/
structure Response where
  code : Int
  data : Option Val

/-- Python truthiness of `res.get("data")`: absent or falsy both read false. -/
def dataTruthy : Option Val → Bool
  | none => false
  | some v => v.truthy

/-- The `body` value: `res["data"].get("body", \x7b\x7d) if isinstance(res.get("data"), dict) else \x7b\x7d`. -/
def respBody (res : Response) : Val :=
  match res.data with
  | some (.vDict fs) => (fs.lookup "body").getD (.vDict [])
  | _ => .vDict []

/-- The `US` field: `body.get("US") if isinstance(body, dict) else None`. -/
def respUS (res : Response) : Option Val :=
  match respBody res with
  | .vDict bfs => bfs.lookup "US"
  | _ => none

/-- Host part of `us.split(":", 1)`. -/
def splitColonHost (us : String) : String :=
  String.mk (us.toList.takeWhile (fun c => c != ':'))

/-- Port-string part of `us.split(":", 1)`. -/
def splitColonRest (us : String) : String :=
  String.mk ((us.toList.dropWhile (fun c => c != ':')).drop 1)

/-- Tail of a Python integer literal after its first digit: digits with
single underscores allowed only between digits. -/
def pyDigitsTail : List Char → Bool
  | [] => true
  | '_' :: rest =>
    match rest with
    | [] => false
    | c :: rest2 => c.isDigit && pyDigitsTail rest2
  | c :: rest => c.isDigit && pyDigitsTail rest

/-- A valid unsigned Python integer literal body (nonempty, digit first). -/
def pyUnsigned : List Char → Bool
  | [] => false
  | c :: rest => c.isDigit && pyDigitsTail rest

/-- Numeric value of a digit/underscore string. -/
def digitsVal (cs : List Char) : Nat :=
  (cs.filter (fun c => c != '_')).foldl (fun a c => a * 10 + (c.toNat - 48)) 0

/-- Python `int(s)`: strips whitespace, allows one sign, then a digit string
with optional single interior underscores; `none` models `ValueError`. -/
def pyInt (s : String) : Option Int :=
  match stripChars s.toList with
  | '+' :: rest => if pyUnsigned rest then some (digitsVal rest) else none
  | '-' :: rest => if pyUnsigned rest then some (-(digitsVal rest : Int)) else none
  | rest => if pyUnsigned rest then some (digitsVal rest) else none

/-- Pure part of `resolve_p2psrv` (check_online.py:17-29): decide the relay
endpoint from a directory reply that was received without transport error. -/
def resolve_parse (res : Response) : Option (String × Int) :=
  if res.code ≥ 400 ∨ dataTruthy res.data = false then none
  else
    match respUS res with
    | some (Val.vStr us) =>
      if pyStrip us = "" ∨ us.toList.contains ':' = false then none
      else
        match pyInt (splitColonRest us) with
        | some p => some (splitColonHost us, p)
        | none => none
    | _ => none

/-- `resolve_p2psrv(serial)` (check_online.py:12-29) as a function of the
directory interaction: a transport exception propagates, a received reply is
parsed and never raises. -/
def resolve_p2psrv (dir : Except Unit Response) : Except Unit (Option (String × Int)) :=
  match dir with
  | .error e => .error e
  | .ok res => .ok (resolve_parse res)

/-- The three network interactions one `is_online(serial)` call performs. -/
structure Net where
  dirResp : Except Unit Response
  probeResp : Except Unit Response
  infoResp : Except Unit Response

/-- `is_online(serial)` (check_online.py:32-53): resolve, then probe and
info against the relay; every exception is caught and yields `false`. -/
def is_online (net : Net) : Bool :=
  match resolve_p2psrv net.dirResp with
  | .error _ => false
  | .ok none => false
  | .ok (some _) =>
    match net.probeResp, net.infoResp with
    | .ok res_probe, .ok res_info =>
      if res_probe.code ≥ 400 ∨ res_info.code ≥ 400 then false
      else dataTruthy res_info.data
    | _, _ => false

/-- A Python value reaching `_normalize_serial`: `None`, a NaN float, or
any other value carrying its `str(...)` rendering. -/
inductive PyVal where
  | vNone
  | vNan
  | vStr (s : String)
deriving DecidableEq

/-- `_normalize_serial(value)` (check_online.py:56-71). -/
def _normalize_serial (v : PyVal) : String :=
  match v with
  | .vNone => ""
  | .vNan => ""
  | .vStr x =>
    let s := pyStrip x
    if pyLower s = "nan" then ""
    else if endsWithDot0 s then dropLast2 s
    else s

/-- One device record row: `\x7b"P2P NUMBER", "SITE", "STORE NAME"\x7d`. -/
structure Row where
  p2p : String
  site : String
  storeName : String
deriving DecidableEq

/-- The `DataStore` state (server.py:21-28): in-memory rows (the DataFrame
mirrors them and is kept in sync), liveness map, last scan epoch. -/
structure DataStore where
  rows : List Row
  online_map : List (String × Bool)
  last_scan_epoch : Option Nat
deriving DecidableEq

/-- `bool(fut.result())` with the surrounding `except` clause: a worker
exception is recorded as `false`. -/
def futureResult (res : Except Unit Bool) : Bool :=
  match res with
  | .ok b => b
  | .error _ => false

/-- The map built by one bulk scan (server.py:57-74, check_online.py:94-113):
unique non-empty serials, each bound to its worker's outcome. -/
def scanMap (serials : List String) (results : String → Except Unit Bool) :
    List (String × Bool) :=
  ((serials.filter (fun s => s != "")).dedup).map (fun s => (s, futureResult (results s)))

/-- `DataStore.scan_statuses` (server.py:57-77): rebuild the liveness map
wholesale and stamp the scan time. -/
def scan_statuses (st : DataStore) (results : String → Except Unit Bool) (now : Nat) :
    DataStore :=
  { st with online_map := scanMap (st.rows.map (fun r => r.p2p)) results
            last_scan_epoch := some now }

/-- `serial != "" and self.online_map.get(serial, False)` for one row. -/
def is_online_row (m : List (String × Bool)) (r : Row) : Bool :=
  r.p2p != "" && ((m.lookup r.p2p).getD false)

/-- The stats view returned by `DataStore.get_stats`. -/
structure Stats where
  total : Nat
  online : Nat
  offline : Nat
  lastUpdated : Option Nat
deriving DecidableEq

/-- `DataStore.get_stats` (server.py:79-96): count each row as online or
offline in one pass. -/
def get_stats (st : DataStore) : Stats :=
  let counts := st.rows.foldl
    (fun (acc : Nat × Nat) r =>
      if is_online_row st.online_map r then (acc.1 + 1, acc.2) else (acc.1, acc.2 + 1))
    (0, 0)
  { total := st.rows.length
    online := counts.1
    offline := counts.2
    lastUpdated := st.last_scan_epoch }

/-- `DataStore.list_by_status` (server.py:98-110); an invalid status raises
`ValueError`, modelled as `.error`. -/
def list_by_status (st : DataStore) (status : String) : Except Unit (List Row) :=
  if status = "all" then .ok st.rows
  else if status = "online" then .ok (st.rows.filter (is_online_row st.online_map))
  else if status = "offline" then .ok (st.rows.filter (fun r => !(is_online_row st.online_map r)))
  else .error ()

/-- `DataStore.search_site` (server.py:112-125): first row whose trimmed
site matches, with its computed status attached. -/
def search_site (st : DataStore) (site : String) : Option (Row × String) :=
  let site_str := pyStrip site
  match st.rows.find? (fun r => pyStrip r.site == site_str) with
  | none => none
  | some r => some (r, if is_online_row st.online_map r then "online" else "offline")

/-- `self.online_map.pop(new_serial, None)`: a Python dict holds a key at
most once, so popping the key removes every pair carrying it. -/
def dictPop (m : List (String × Bool)) (k : String) : List (String × Bool) :=
  m.filter (fun p => p.1 != k)

/-- `DataStore.update_p2p` (server.py:127-148): rewrite the serial of every
row whose trimmed site matches, drop the new serial's liveness entry, clear
the scan epoch; report `false` when nothing matches. -/
def update_p2p (st : DataStore) (site : String) (new_p2p : PyVal) : DataStore × Bool :=
  let site_str := pyStrip site
  let new_serial := _normalize_serial new_p2p
  if st.rows.any (fun r => pyStrip r.site == site_str) then
    ({ rows := st.rows.map
         (fun r => if pyStrip r.site == site_str then { r with p2p := new_serial } else r)
       online_map := if new_serial != "" then dictPop st.online_map new_serial else st.online_map
       last_scan_epoch := none }, true)
  else (st, false)

/-- One public `DataStore` operation, as dispatched by the serving layer and
the background scanner loop. -/
inductive Op where
  | load (rows : List Row)
  | getStats
  | listByStatus (status : String)
  | searchSite (site : String)
  | updateP2p (site : String) (new_p2p : PyVal)
  | refresh (results : String → Except Unit Bool) (now : Nat)

/-- State transition of one operation (reads leave the state unchanged). -/
def step (st : DataStore) : Op → DataStore
  | .load rows => { st with rows := rows }
  | .getStats => st
  | .listByStatus _ => st
  | .searchSite _ => st
  | .updateP2p site new_p2p => (update_p2p st site new_p2p).1
  | .refresh results now => scan_statuses st results now

/-- A sequence of operations applied in order. -/
def run (st : DataStore) (ops : List Op) : DataStore :=
  ops.foldl step st

/-- Distinct non-empty serials carrying `true` in a liveness map. -/
def trueKeyCount (m : List (String × Bool)) : Nat :=
  ((m.filter (fun p => p.1 != "" && p.2)).map Prod.fst).dedup.length

/-! ## Helper lemmas -/

/-- Looking up a key in a list pairing each element with a computed value. -/
theorem lookup_pairing (g : String → Bool) (L : List String) (s : String) :
    (L.map (fun t => (t, g t))).lookup s = if s ∈ L then some (g s) else none := by
  induction L with
  | nil => simp
  | cons t ts ih =>
    by_cases hst : s = t
    · subst hst
      simp [List.lookup]
    · have hb : (s == t) = false := by simp [hst]
      simp [List.lookup, hb, ih, List.mem_cons, hst]

/-- After popping a key from a dict, looking it up yields nothing. -/
theorem lookup_dictPop (m : List (String × Bool)) (k : String) :
    (dictPop m k).lookup k = none := by
  induction m with
  | nil => rfl
  | cons p t ih =>
    obtain ⟨k1, v1⟩ := p
    by_cases hp : k1 = k
    · simpa [dictPop, List.filter_cons, hp] using ih
    · have hb2 : (k == k1) = false := by
        simp only [beq_eq_false_iff_ne, ne_eq]
        exact fun h => hp h.symm
      simpa [dictPop, List.filter_cons, hp, List.lookup, hb2] using ih

/-- The counting fold of `get_stats`, related to filters. -/
theorem foldl_count (p : Row → Bool) (l : List Row) (a b : Nat) :
    l.foldl (fun acc r => if p r then (acc.1 + 1, acc.2) else (acc.1, acc.2 + 1)) (a, b)
      = (a + (l.filter p).length, b + (l.filter (fun r => !(p r))).length) := by
  induction l generalizing a b with
  | nil => simp
  | cons r t ih =>
    by_cases hp : p r
    · simp [List.filter_cons, hp, ih]
      omega
    · simp [List.filter_cons, hp, ih]
      omega

/-- A filter and its complement split the length of a list. -/
theorem filter_length_split (p : Row → Bool) (l : List Row) :
    (l.filter p).length + (l.filter (fun r => !(p r))).length = l.length := by
  induction l with
  | nil => rfl
  | cons r t ih =>
    by_cases hp : p r <;> simp [List.filter_cons, hp] <;> omega

/-- The online counter of `get_stats` as a filter length. -/
theorem get_stats_online_eq (st : DataStore) :
    (get_stats st).online = (st.rows.filter (is_online_row st.online_map)).length := by
  have h := foldl_count (is_online_row st.online_map) st.rows 0 0
  simp only [get_stats]
  rw [h]
  simp

/-- The offline counter of `get_stats` as a filter length. -/
theorem get_stats_offline_eq (st : DataStore) :
    (get_stats st).offline
      = (st.rows.filter (fun r => !(is_online_row st.online_map r))).length := by
  have h := foldl_count (is_online_row st.online_map) st.rows 0 0
  simp only [get_stats]
  rw [h]
  simp

/-- `find?` returns the first hit when everything before it misses. -/
theorem find_first {α : Type} (p : α → Bool) (pre rest : List α) (x : α)
    (hx : p x = true) (hpre : ∀ a ∈ pre, p a = false) :
    (pre ++ x :: rest).find? p = some x := by
  induction pre with
  | nil =>
    simp only [List.nil_append]
    exact List.find?_cons_of_pos _ hx
  | cons a t ih =>
    simp only [List.cons_append]
    rw [List.find?_cons_of_neg _ (by simp [hpre a (List.mem_cons_self a t)])]
    exact ih (fun b hb => hpre b (List.mem_cons_of_mem a hb))

/-- Filters agreeing on every member of a list coincide on it. -/
theorem filter_congr_mem {α : Type} (p q : α → Bool) (l : List α)
    (h : ∀ a ∈ l, p a = q a) : l.filter p = l.filter q := by
  induction l with
  | nil => rfl
  | cons a t ih =>
    rw [List.filter_cons, List.filter_cons, h a (List.mem_cons_self a t),
      ih (fun b hb => h b (List.mem_cons_of_mem a hb))]

/-- Filtering a key-value pairing is pairing the filtered keys. -/
theorem filter_map_pairing (g : String → Bool) (q : String × Bool → Bool) (L : List String) :
    (L.map (fun t => (t, g t))).filter q
      = (L.filter (fun t => q (t, g t))).map (fun t => (t, g t)) := by
  induction L with
  | nil => rfl
  | cons t ts ih => by_cases hq : q (t, g t) <;> simp [List.filter_cons, hq, ih]

/-- Filtering after mapping keeps as many elements as filtering the
composed predicate. -/
theorem length_filter_map_gen {α β : Type} (f : α → β) (q : β → Bool) (l : List α) :
    ((l.map f).filter q).length = (l.filter (fun a => q (f a))).length := by
  induction l with
  | nil => rfl
  | cons a t ih => by_cases hq : q (f a) <;> simp [List.filter_cons, hq, ih]

/-- Two successive filters combine into one conjunction filter. -/
theorem filter_filter_comb {α : Type} (p q : α → Bool) (l : List α) :
    (l.filter p).filter q = l.filter (fun a => p a && q a) := by
  induction l with
  | nil => rfl
  | cons a t ih =>
    by_cases hp : p a <;> by_cases hq : q a <;> simp [List.filter_cons, hp, hq, ih]

/-- A reply without a usable `US` field parses to no endpoint. -/
theorem resolve_parse_US_none (res : Response) (hUS : respUS res = none) :
    resolve_parse res = none := by
  by_cases hc : res.code ≥ 400 ∨ dataTruthy res.data = false
  · simp [resolve_parse, hc]
  · simp [resolve_parse, hc, hUS]

/-- A reply whose `US` field is not a string parses to no endpoint. -/
theorem resolve_parse_US_not_str (res : Response)
    (h : ∀ s, respUS res ≠ some (Val.vStr s)) : resolve_parse res = none := by
  cases hU : respUS res with
  | none => exact resolve_parse_US_none res hU
  | some v =>
    by_cases hc : res.code ≥ 400 ∨ dataTruthy res.data = false
    · simp [resolve_parse, hc]
    · cases v with
      | vStr s => exact absurd hU (h s)
      | vNull => simp [resolve_parse, hc, hU]
      | vBool b => simp [resolve_parse, hc, hU]
      | vInt n => simp [resolve_parse, hc, hU]
      | vList xs => simp [resolve_parse, hc, hU]
      | vDict fs => simp [resolve_parse, hc, hU]

/-- When `data` is not a dict, no `US` field is found. -/
theorem respUS_none_of_data_not_dict (res : Response)
    (h : ∀ fs, res.data ≠ some (Val.vDict fs)) : respUS res = none := by
  unfold respUS respBody
  cases hd : res.data with
  | none => rfl
  | some v =>
    cases v with
    | vDict fs => exact absurd hd (h fs)
    | vNull => rfl
    | vBool b => rfl
    | vInt n => rfl
    | vStr s => rfl
    | vList xs => rfl

/-- When `body` is not a dict, no `US` field is found. -/
theorem respUS_none_of_body_not_dict (res : Response)
    (h : ∀ bfs, respBody res ≠ Val.vDict bfs) : respUS res = none := by
  unfold respUS
  cases hb : respBody res with
  | vDict bfs => exact absurd hb (h bfs)
  | vNull => rfl
  | vBool b => rfl
  | vInt n => rfl
  | vStr s => rfl
  | vList xs => rfl

/-! ## Claim theorems -/

/-- C1 counterexample: a reachable reply carrying `US = ":8080"` — an empty
host — is not treated as unresolved: `resolve_p2psrv` returns the endpoint
`("", 8080)` instead of the empty option. -/
theorem resolve_empty_host_cex :
    respUS ⟨200, some (Val.vDict [("body", Val.vDict [("US", Val.vStr ":8080")])])⟩
        = some (Val.vStr ":8080") ∧
    splitColonHost ":8080" = "" ∧
    resolve_p2psrv
        (Except.ok ⟨200, some (Val.vDict [("body", Val.vDict [("US", Val.vStr ":8080")])])⟩)
        = Except.ok (some ("", 8080)) :=
  ⟨rfl, by decide, rfl⟩

/-- C1 (amended): a reachable directory reply that is malformed in any of
the coded ways — status `≥ 400`, absent or falsy `data`, `data` or `body`
not an object, `US` missing or not a string, `US` empty after stripping,
`US` without a colon, or a non-integer port — makes `resolve_p2psrv`
return the empty option, with no exception.  (The claim's further
empty-host case does not hold; see the counterexample.) -/
theorem resolve_malformed_none (res : Response)
    (h : res.code ≥ 400 ∨ dataTruthy res.data = false ∨
         (∀ fs, res.data ≠ some (Val.vDict fs)) ∨
         (∀ bfs, respBody res ≠ Val.vDict bfs) ∨
         respUS res = none ∨
         (∀ s, respUS res ≠ some (Val.vStr s)) ∨
         (∃ us, respUS res = some (Val.vStr us) ∧
            (pyStrip us = "" ∨ us.toList.contains ':' = false ∨
             pyInt (splitColonRest us) = none))) :
    resolve_p2psrv (Except.ok res) = Except.ok none := by
  suffices hs : resolve_parse res = none by simp [resolve_p2psrv, hs]
  rcases h with h | h | h | h | h | h | ⟨us, hU, hcond⟩
  · simp [resolve_parse, h]
  · simp [resolve_parse, h]
  · exact resolve_parse_US_none res (respUS_none_of_data_not_dict res h)
  · exact resolve_parse_US_none res (respUS_none_of_body_not_dict res h)
  · exact resolve_parse_US_none res h
  · exact resolve_parse_US_not_str res h
  · by_cases hc : res.code ≥ 400 ∨ dataTruthy res.data = false
    · simp [resolve_parse, hc]
    · by_cases hin : pyStrip us = "" ∨ us.toList.contains ':' = false
      · rcases hin with h1 | h2
        · simp [resolve_parse, hc, hU, h1]
        · simp only [resolve_parse, hU]
          rw [if_neg hc, if_pos (Or.inr h2)]
      · rcases hcond with h1 | h2 | h3
        · exact absurd (Or.inl h1) hin
        · exact absurd (Or.inr h2) hin
        · simp [resolve_parse, hc, hU, hin, h3]

/-- C1 witness: the amended theorem applied to a `404` directory reply. -/
theorem resolve_malformed_none_witness :
    ((⟨404, none⟩ : Response).code ≥ 400 ∨
     dataTruthy (⟨404, none⟩ : Response).data = false ∨
     (∀ fs, (⟨404, none⟩ : Response).data ≠ some (Val.vDict fs)) ∨
     (∀ bfs, respBody ⟨404, none⟩ ≠ Val.vDict bfs) ∨
     respUS ⟨404, none⟩ = none ∨
     (∀ s, respUS ⟨404, none⟩ ≠ some (Val.vStr s)) ∨
     (∃ us, respUS ⟨404, none⟩ = some (Val.vStr us) ∧
        (pyStrip us = "" ∨ us.toList.contains ':' = false ∨
         pyInt (splitColonRest us) = none))) ∧
    resolve_p2psrv (Except.ok ⟨404, none⟩) = Except.ok none :=
  ⟨Or.inl (by decide), resolve_malformed_none ⟨404, none⟩ (Or.inl (by decide))⟩

/-- C2 counterexample: two records share serial `"111"`; after a scan that
finds it alive, `get_stats` reports `online = 2`, yet only one distinct
non-empty serial carries `true` in the liveness map. -/
theorem stats_online_dup_serial_cex :
    (get_stats (scan_statuses ⟨[⟨"111", "A", "X"⟩, ⟨"111", "B", "Y"⟩], [], none⟩
        (fun _ => Except.ok true) 5)).online = 2 ∧
    trueKeyCount (scan_statuses ⟨[⟨"111", "A", "X"⟩, ⟨"111", "B", "Y"⟩], [], none⟩
        (fun _ => Except.ok true) 5).online_map = 1 := by
  constructor <;> decide

/-- C2 (amended): in a served view created by a scan, when no two records
share a serial, the `online` count of `get_stats` equals the number of
distinct non-empty serials carrying `true` in the liveness map.  (With
duplicated serials the counts differ; see the counterexample.) -/
theorem stats_online_eq_true_serials (rows : List Row) (m : List (String × Bool))
    (e : Option Nat) (results : String → Except Unit Bool) (now : Nat)
    (hnd : (rows.map (fun r => r.p2p)).Nodup) :
    (get_stats (scan_statuses ⟨rows, m, e⟩ results now)).online
        = trueKeyCount (scan_statuses ⟨rows, m, e⟩ results now).online_map := by
  have hF : ((rows.map (fun r => r.p2p)).filter (fun s => s != "")).Nodup := hnd.filter _
  have hded : ((rows.map (fun r => r.p2p)).filter (fun s => s != "")).dedup
      = (rows.map (fun r => r.p2p)).filter (fun s => s != "") := List.dedup_eq_self.mpr hF
  have honline : (scan_statuses ⟨rows, m, e⟩ results now).online_map
      = ((rows.map (fun r => r.p2p)).filter (fun s => s != "")).map
          (fun t => (t, futureResult (results t))) := by
    simp [scan_statuses, scanMap, hded]
  have hL : (get_stats (scan_statuses ⟨rows, m, e⟩ results now)).online
      = ((rows.map (fun r => r.p2p)).filter
          (fun s => s != "" && futureResult (results s))).length := by
    rw [get_stats_online_eq]
    have hrows : (scan_statuses ⟨rows, m, e⟩ results now).rows = rows := rfl
    rw [hrows, honline]
    have hcongr : rows.filter (is_online_row (((rows.map (fun r => r.p2p)).filter
            (fun s => s != "")).map (fun t => (t, futureResult (results t)))))
        = rows.filter (fun r => r.p2p != "" && futureResult (results r.p2p)) := by
      apply filter_congr_mem
      intro r hr
      by_cases hp : r.p2p = ""
      · simp [is_online_row, hp]
      · have hmem : r.p2p ∈ (rows.map (fun x => x.p2p)).filter (fun s => s != "") := by
          refine List.mem_filter.mpr ⟨List.mem_map.mpr ⟨r, hr, rfl⟩, ?_⟩
          simp [hp]
        simp [is_online_row, lookup_pairing, hmem, hp]
    rw [hcongr]
    exact (length_filter_map_gen (fun r : Row => r.p2p)
      (fun s => s != "" && futureResult (results s)) rows).symm
  have hR : trueKeyCount ((((rows.map (fun r => r.p2p)).filter (fun s => s != "")).map
        (fun t => (t, futureResult (results t)))))
      = ((rows.map (fun r => r.p2p)).filter
          (fun s => s != "" && futureResult (results s))).length := by
    simp only [trueKeyCount]
    rw [filter_map_pairing (fun t => futureResult (results t))
      (fun p => p.1 != "" && p.2) ((rows.map (fun r => r.p2p)).filter (fun s => s != ""))]
    rw [List.map_map]
    have hid : (Prod.fst ∘ fun t : String => (t, futureResult (results t))) = id := rfl
    rw [hid, List.map_id]
    rw [List.dedup_eq_self.mpr (hF.filter _)]
    rw [filter_filter_comb]
    have hfun : (fun a : String => (a != "")
          && ((a, futureResult (results a)).1 != "" && (a, futureResult (results a)).2))
        = (fun a : String => a != "" && futureResult (results a)) := by
      funext a
      by_cases h1 : a = "" <;> simp [h1]
    rw [hfun]
  rw [hL, honline, hR]

/-- C2 witness: the amended theorem applied to two records with distinct
serials, both found alive by the scan. -/
theorem stats_online_eq_true_serials_witness :
    (([⟨"1", "A", "X"⟩, ⟨"2", "B", "Y"⟩] : List Row).map (fun r => r.p2p)).Nodup ∧
    (get_stats (scan_statuses ⟨[⟨"1", "A", "X"⟩, ⟨"2", "B", "Y"⟩], [], none⟩
        (fun _ => Except.ok true) 7)).online
      = trueKeyCount (scan_statuses ⟨[⟨"1", "A", "X"⟩, ⟨"2", "B", "Y"⟩], [], none⟩
          (fun _ => Except.ok true) 7).online_map :=
  ⟨by decide, stats_online_eq_true_serials [⟨"1", "A", "X"⟩, ⟨"2", "B", "Y"⟩] [] none
      (fun _ => Except.ok true) 7 (by decide)⟩

/-- C5: `_normalize_serial` is a pure total function and, applying its rules
in the coded order, sends `"123.0"` to `"123"`, `None` to `""`, the NaN
float sentinel to `""`, the string `"NaN"` to `""`, and `"  42  "` to
`"42"`. -/
theorem normalize_serial_values :
    _normalize_serial (PyVal.vStr "123.0") = "123" ∧
    _normalize_serial PyVal.vNone = "" ∧
    _normalize_serial PyVal.vNan = "" ∧
    _normalize_serial (PyVal.vStr "NaN") = "" ∧
    _normalize_serial (PyVal.vStr "  42  ") = "42" := by
  decide

/-- C7: after any `get_stats` call, `total = online + offline`, where
`total` is the number of device records currently loaded. -/
theorem get_stats_total_eq_online_add_offline (st : DataStore) :
    (get_stats st).total = (get_stats st).online + (get_stats st).offline := by
  have h1 := get_stats_online_eq st
  have h2 := get_stats_offline_eq st
  have h3 := filter_length_split (is_online_row st.online_map) st.rows
  have h4 : (get_stats st).total = st.rows.length := rfl
  omega

/-- C9: running `scan_statuses` twice with the same per-serial outcomes
yields identical `get_stats` output apart from `lastUpdated`. -/
theorem refresh_twice_stats (st : DataStore) (results : String → Except Unit Bool)
    (t1 t2 : Nat) :
    (get_stats (scan_statuses (scan_statuses st results t1) results t2)).total
        = (get_stats (scan_statuses st results t1)).total ∧
    (get_stats (scan_statuses (scan_statuses st results t1) results t2)).online
        = (get_stats (scan_statuses st results t1)).online ∧
    (get_stats (scan_statuses (scan_statuses st results t1) results t2)).offline
        = (get_stats (scan_statuses st results t1)).offline :=
  ⟨rfl, rfl, rfl⟩

/-- C4: a bulk scan's map has exactly the deduplicated non-empty serials as
keys, binds every key to a boolean (a worker failure reads as `false`,
nothing is absent), and an empty serial set yields an empty map. -/
theorem scan_map_keys_values (S : List String) (results : String → Except Unit Bool)
    (s : String) :
    ((scanMap S results).map Prod.fst = (S.filter (fun t => t != "")).dedup) ∧
    ((scanMap S results).lookup s =
      if s ∈ (S.filter (fun t => t != "")).dedup
      then some (futureResult (results s)) else none) ∧
    scanMap [] results = [] := by
  refine ⟨?_, ?_, rfl⟩
  · have hid : (Prod.fst ∘ fun t : String => (t, futureResult (results t))) = id := rfl
    simp only [scanMap, List.map_map]
    rw [hid, List.map_id]
  · exact lookup_pairing (fun t => futureResult (results t)) _ s

/-- C3: `is_online` is a total boolean function of the three transport
interactions; it returns `true` iff resolution succeeded, both relay
replies arrived with `code < 400`, and the info reply carries truthy
(non-empty) data; a failed resolution or an exception anywhere yields
`false`. -/
theorem is_online_iff (net : Net) :
    is_online net = true ↔
      ((∃ ep, resolve_p2psrv net.dirResp = Except.ok (some ep)) ∧
       (∃ rp, net.probeResp = Except.ok rp ∧ rp.code < 400) ∧
       (∃ ri, net.infoResp = Except.ok ri ∧ ri.code < 400 ∧ dataTruthy ri.data = true)) := by
  obtain ⟨dir, pr, inf⟩ := net
  cases dir with
  | error e => simp [is_online, resolve_p2psrv]
  | ok res =>
    cases hp : resolve_parse res with
    | none =>
      cases pr <;> cases inf <;> simp [is_online, resolve_p2psrv, hp]
    | some ep =>
      cases pr with
      | error e => simp [is_online, resolve_p2psrv, hp]
      | ok rp =>
        cases inf with
        | error e => simp [is_online, resolve_p2psrv, hp]
        | ok ri =>
          have hval : is_online ⟨Except.ok res, Except.ok rp, Except.ok ri⟩
              = (if rp.code ≥ 400 ∨ ri.code ≥ 400 then false else dataTruthy ri.data) := by
            simp [is_online, resolve_p2psrv, hp]
          rw [hval]
          split_ifs with hc
          · constructor
            · intro h
              exact h.elim
            · rintro ⟨-, ⟨rp2, hrp, hrpc⟩, ⟨ri2, hri, hric, -⟩⟩
              obtain rfl : rp2 = rp := (Except.ok.inj hrp).symm
              obtain rfl : ri2 = ri := (Except.ok.inj hri).symm
              rcases hc with hc | hc <;> omega
          · push_neg at hc
            constructor
            · intro h
              refine ⟨⟨ep, ?_⟩, ⟨rp, rfl, hc.1⟩, ⟨ri, rfl, hc.2, h⟩⟩
              simp [resolve_p2psrv, hp]
            · rintro ⟨-, -, ⟨ri2, hri, -, hrid⟩⟩
              obtain rfl : ri2 = ri := (Except.ok.inj hri).symm
              exact hrid

/-- C8: along every sequence of `DataStore` operations, each step either
leaves the liveness map untouched, replaces it wholesale by a bulk scan's
result, or removes a single key — never a per-key partial write. -/
theorem online_map_mutation_shapes (st : DataStore) (ops : List Op) (op : Op) :
    (step (run st ops) op).online_map = (run st ops).online_map ∨
    (∃ results, (step (run st ops) op).online_map
        = scanMap ((run st ops).rows.map (fun r => r.p2p)) results) ∨
    (∃ k, (step (run st ops) op).online_map = dictPop (run st ops).online_map k) := by
  cases op with
  | load rows => exact Or.inl rfl
  | getStats => exact Or.inl rfl
  | listByStatus s => exact Or.inl rfl
  | searchSite s => exact Or.inl rfl
  | refresh results now => exact Or.inr (Or.inl ⟨results, rfl⟩)
  | updateP2p site new_p2p =>
    by_cases hm : (run st ops).rows.any (fun r => pyStrip r.site == pyStrip site) = true
    · by_cases hn : _normalize_serial new_p2p = ""
      · refine Or.inl ?_
        simp [step, update_p2p, hm, hn]
      · refine Or.inr (Or.inr ⟨_normalize_serial new_p2p, ?_⟩)
        simp [step, update_p2p, hm, hn]
    · refine Or.inl ?_
      simp [step, update_p2p, hm]

/-- C6: `update_p2p` returns `false` exactly when no record's trimmed site
matches, and then changes nothing; on a match it rewrites each matching
record's serial to the normalized value, leaves no liveness entry for the
new serial, and clears the scan timestamp system-wide.  The hypothesis
records the invariant that the liveness map never holds the empty serial
(scans only insert non-empty serials). -/
theorem update_p2p_contract (st : DataStore) (site : String) (new_p2p : PyVal)
    (hinv : st.online_map.lookup "" = none) :
    ((update_p2p st site new_p2p).2 = false ↔
        ∀ r ∈ st.rows, pyStrip r.site ≠ pyStrip site) ∧
    ((update_p2p st site new_p2p).2 = false → (update_p2p st site new_p2p).1 = st) ∧
    ((update_p2p st site new_p2p).2 = true →
      (update_p2p st site new_p2p).1.rows
          = st.rows.map (fun r =>
              if pyStrip r.site == pyStrip site
              then { r with p2p := _normalize_serial new_p2p } else r) ∧
      (update_p2p st site new_p2p).1.online_map.lookup (_normalize_serial new_p2p) = none ∧
      (update_p2p st site new_p2p).1.last_scan_epoch = none) := by
  by_cases hm : st.rows.any (fun r => pyStrip r.site == pyStrip site) = true
  · have h2 : (update_p2p st site new_p2p).2 = true := by simp [update_p2p, hm]
    refine ⟨?_, ?_, ?_⟩
    · rw [h2]
      constructor
      · intro h
        exact absurd h (by simp)
      · intro hall
        obtain ⟨r, hr, hrb⟩ := List.any_eq_true.mp hm
        exact absurd (eq_of_beq hrb) (hall r hr)
    · intro h
      rw [h2] at h
      exact absurd h (by simp)
    · intro _
      refine ⟨by simp [update_p2p, hm], ?_, by simp [update_p2p, hm]⟩
      by_cases hn : _normalize_serial new_p2p = ""
      · have : (update_p2p st site new_p2p).1.online_map = st.online_map := by
          simp [update_p2p, hm, hn]
        rw [this, hn]
        exact hinv
      · have : (update_p2p st site new_p2p).1.online_map
            = dictPop st.online_map (_normalize_serial new_p2p) := by
          simp [update_p2p, hm, hn]
        rw [this]
        exact lookup_dictPop st.online_map (_normalize_serial new_p2p)
  · have h2 : (update_p2p st site new_p2p).2 = false := by simp [update_p2p, hm]
    have h1 : (update_p2p st site new_p2p).1 = st := by simp [update_p2p, hm]
    refine ⟨?_, fun _ => h1, ?_⟩
    · rw [h2]
      simp only [true_iff]
      intro r hr hcontra
      apply hm
      exact List.any_eq_true.mpr ⟨r, hr, beq_iff_eq.mpr hcontra⟩
    · intro h
      rw [h2] at h
      exact absurd h (by simp)

/-- C6 witness: a concrete store with one record at site `"A"`, updated to
serial `"999"`; the hypothesis is discharged by evaluation and the contract
is applied at these inputs. -/
theorem update_p2p_contract_witness :
    ((([("111", true)] : List (String × Bool)).lookup "") = none) ∧
    (((update_p2p ⟨[⟨"111", "A", "X"⟩], [("111", true)], some 3⟩ "A" (PyVal.vStr "999")).2
        = false ↔
        ∀ r ∈ (⟨[⟨"111", "A", "X"⟩], [("111", true)], some 3⟩ : DataStore).rows,
          pyStrip r.site ≠ pyStrip "A") ∧
      ((update_p2p ⟨[⟨"111", "A", "X"⟩], [("111", true)], some 3⟩ "A" (PyVal.vStr "999")).2
          = false →
        (update_p2p ⟨[⟨"111", "A", "X"⟩], [("111", true)], some 3⟩ "A" (PyVal.vStr "999")).1
          = ⟨[⟨"111", "A", "X"⟩], [("111", true)], some 3⟩) ∧
      ((update_p2p ⟨[⟨"111", "A", "X"⟩], [("111", true)], some 3⟩ "A" (PyVal.vStr "999")).2
          = true →
        (update_p2p ⟨[⟨"111", "A", "X"⟩], [("111", true)], some 3⟩ "A"
            (PyVal.vStr "999")).1.rows
            = (⟨[⟨"111", "A", "X"⟩], [("111", true)], some 3⟩ : DataStore).rows.map
                (fun r =>
                  if pyStrip r.site == pyStrip "A"
                  then { r with p2p := _normalize_serial (PyVal.vStr "999") } else r) ∧
        (update_p2p ⟨[⟨"111", "A", "X"⟩], [("111", true)], some 3⟩ "A"
            (PyVal.vStr "999")).1.online_map.lookup
              (_normalize_serial (PyVal.vStr "999")) = none ∧
        (update_p2p ⟨[⟨"111", "A", "X"⟩], [("111", true)], some 3⟩ "A"
            (PyVal.vStr "999")).1.last_scan_epoch = none)) :=
  ⟨by decide,
   update_p2p_contract ⟨[⟨"111", "A", "X"⟩], [("111", true)], some 3⟩ "A" (PyVal.vStr "999")
     (by decide)⟩

/-- C10: when several records share the same trimmed site, a successful
`update_p2p` rewrites the serial of every matching record — those after the
first included — while `search_site` returns only the first matching record
in original order. -/
theorem update_all_matches_search_first (st : DataStore) (site : String) (new_p2p : PyVal)
    (pre rest : List Row) (r0 : Row)
    (hrows : st.rows = pre ++ r0 :: rest)
    (hr0 : pyStrip r0.site = pyStrip site)
    (hpre : ∀ r ∈ pre, pyStrip r.site ≠ pyStrip site) :
    search_site st site
        = some (r0, if is_online_row st.online_map r0 then "online" else "offline") ∧
    (update_p2p st site new_p2p).2 = true ∧
    (∀ r ∈ (update_p2p st site new_p2p).1.rows,
        pyStrip r.site = pyStrip site → r.p2p = _normalize_serial new_p2p) := by
  have hfind : st.rows.find? (fun r => pyStrip r.site == pyStrip site) = some r0 := by
    rw [hrows]
    refine find_first _ pre rest r0 (beq_iff_eq.mpr hr0) ?_
    intro a ha
    simp only [beq_eq_false_iff_ne, ne_eq]
    exact hpre a ha
  have hany : st.rows.any (fun r => pyStrip r.site == pyStrip site) = true := by
    refine List.any_eq_true.mpr ⟨r0, ?_, beq_iff_eq.mpr hr0⟩
    rw [hrows]
    exact List.mem_append_right pre (List.mem_cons_self r0 rest)
  refine ⟨?_, by simp [update_p2p, hany], ?_⟩
  · simp [search_site, hfind]
  · intro r hr hmatch
    have hrows2 : (update_p2p st site new_p2p).1.rows
        = st.rows.map (fun x =>
            if pyStrip x.site == pyStrip site
            then { x with p2p := _normalize_serial new_p2p } else x) := by
      simp [update_p2p, hany]
    rw [hrows2] at hr
    obtain ⟨x, hx, rfl⟩ := List.mem_map.mp hr
    by_cases hpx : pyStrip x.site == pyStrip site
    · simp [hpx]
    · exfalso
      apply hpx
      refine beq_iff_eq.mpr ?_
      simpa [hpx] using hmatch

/-- C10 witness: two records at site `"A"`; searching returns the first and
updating rewrites both serials. -/
theorem update_all_matches_search_first_witness :
    ((⟨[⟨"1", "A", "X"⟩, ⟨"2", "A", "Y"⟩], [], none⟩ : DataStore).rows
        = [] ++ ⟨"1", "A", "X"⟩ :: [⟨"2", "A", "Y"⟩]) ∧
    (pyStrip (Row.mk "1" "A" "X").site = pyStrip "A") ∧
    (∀ r ∈ ([] : List Row), pyStrip r.site ≠ pyStrip "A") ∧
    (search_site ⟨[⟨"1", "A", "X"⟩, ⟨"2", "A", "Y"⟩], [], none⟩ "A"
        = some (⟨"1", "A", "X"⟩,
            if is_online_row (⟨[⟨"1", "A", "X"⟩, ⟨"2", "A", "Y"⟩], [], none⟩ :
                DataStore).online_map ⟨"1", "A", "X"⟩ then "online" else "offline") ∧
      (update_p2p ⟨[⟨"1", "A", "X"⟩, ⟨"2", "A", "Y"⟩], [], none⟩ "A" (PyVal.vStr "9")).2
          = true ∧
      (∀ r ∈ (update_p2p ⟨[⟨"1", "A", "X"⟩, ⟨"2", "A", "Y"⟩], [], none⟩ "A"
            (PyVal.vStr "9")).1.rows,
          pyStrip r.site = pyStrip "A" → r.p2p = _normalize_serial (PyVal.vStr "9"))) :=
  ⟨rfl, rfl, by simp,
   update_all_matches_search_first ⟨[⟨"1", "A", "X"⟩, ⟨"2", "A", "Y"⟩], [], none⟩ "A"
     (PyVal.vStr "9") [] [⟨"2", "A", "Y"⟩] ⟨"1", "A", "X"⟩ rfl rfl (by simp)⟩

end DVR
